import Mathlib

/-!
Shallow embedding of the uvstart backend engine
(src/engine/backend_config.hpp, src/engine/backend_config.cpp,
src/engine/engine.hpp, src/engine/engine.cpp), with theorems checking the
specification's claims about detection, resolution, command rendering,
execution results and cleanup.

Modelling conventions:
* `std::string` is `String`, `std::vector<std::string>` is `List String`.
* The filesystem is a value of type `FS` (an existence predicate plus a
  file-content function), mirroring the two primitives used by the engine
  (`Engine::file_exists`, `Engine::read_file`; `read_file` returns `""`
  for an unreadable file).
* The subprocess primitive (`popen`/`pclose` in `Engine::execute_command`)
  is a parameter `exec : String → Option (Int × String)`: it receives the
  single shell string the engine builds, and returns `none` when `popen`
  fails, otherwise the `pclose` status and captured output.
* Recursive deletion (`std::filesystem::remove_all` in
  `Engine::clean_project`) is a parameter `del : String → Option String`:
  `none` means the deletion succeeded, `some e` means it threw an
  exception whose `what()` text is `e`.
* `BackendRegistry::backends_` is a `std::map` keyed by backend name, so
  iteration visits entries in ascending lexicographic key order; the
  association list `backends_` below lists the five registered entries in
  exactly that order.
-/

namespace Uvstart

/-- Model of `struct BackendConfig` from backend_config.hpp. -/
structure BackendConfig where
  name : String
  detection_files : List String
  detection_patterns : List String
  install_url : String
  add_cmd : List String
  add_dev_cmd : List String
  remove_cmd : List String
  sync_cmd : List String
  sync_dev_cmd : List String
  run_cmd_ : List String
  list_cmd : List String
  version_cmd : List String
  clean_files : List String
deriving DecidableEq, Repr

/-- Model of `struct OperationResult` from engine.hpp. -/
structure OperationResult where
  success : Bool
  output : String
  error : String
  exit_code : Int
deriving DecidableEq, Repr

/-- The filesystem as seen through the two read primitives the engine uses. -/
structure FS where
  exists_file : String → Bool
  read_file : String → String

/-- The subprocess service behind `popen`/`pclose`: input is the shell
command string, output is `none` if `popen` fails, else the `pclose`
status and the captured stdout text. -/
def Exec : Type := String → Option (Int × String)

/-- The recursive-deletion service behind `std::filesystem::remove_all`:
`none` = success, `some e` = an exception with message `e` was thrown. -/
def Del : Type := String → Option String

/-- The "pdm" entry registered in
`BackendRegistry::initialize_default_backends` (backend_config.cpp). -/
def pdm_config : BackendConfig :=
  { name := "pdm"
  , detection_files := ["pdm.lock"]
  , detection_patterns := []
  , install_url := "curl -sSL https://pdm-project.org/install-pdm.py | python3 -"
  , add_cmd := ["pdm", "add"]
  , add_dev_cmd := ["pdm", "add", "--dev"]
  , remove_cmd := ["pdm", "remove"]
  , sync_cmd := ["pdm", "sync"]
  , sync_dev_cmd := ["pdm", "sync", "--dev"]
  , run_cmd_ := ["pdm", "run"]
  , list_cmd := ["pdm", "list"]
  , version_cmd := ["pdm", "--version"]
  , clean_files := ["pdm.lock", ".pdm-python", "__pypackages__"] }

/-- The "uv" entry registered in `initialize_default_backends`. -/
def uv_config : BackendConfig :=
  { name := "uv"
  , detection_files := ["uv.lock", "__pypackages__"]
  , detection_patterns := ["[tool.uv]"]
  , install_url := "curl -LsSf https://astral.sh/uv/install.sh | sh"
  , add_cmd := ["uv", "add"]
  , add_dev_cmd := ["uv", "add", "--group", "dev"]
  , remove_cmd := ["uv", "remove"]
  , sync_cmd := ["uv", "sync"]
  , sync_dev_cmd := ["uv", "sync", "--group", "dev"]
  , run_cmd_ := ["uv", "run"]
  , list_cmd := ["uv", "pip", "list"]
  , version_cmd := ["uv", "--version"]
  , clean_files := ["uv.lock", "__pypackages__"] }

/-- The "poetry" entry registered in `initialize_default_backends`. -/
def poetry_config : BackendConfig :=
  { name := "poetry"
  , detection_files := ["poetry.lock"]
  , detection_patterns := ["poetry"]
  , install_url := "curl -sSL https://install.python-poetry.org | python3 -"
  , add_cmd := ["poetry", "add"]
  , add_dev_cmd := ["poetry", "add", "--group", "dev"]
  , remove_cmd := ["poetry", "remove"]
  , sync_cmd := ["poetry", "install"]
  , sync_dev_cmd := ["poetry", "install", "--with", "dev"]
  , run_cmd_ := ["poetry", "run"]
  , list_cmd := ["poetry", "show"]
  , version_cmd := ["poetry", "--version"]
  , clean_files := ["poetry.lock", ".venv"] }

/-- The "rye" entry registered in `initialize_default_backends`. -/
def rye_config : BackendConfig :=
  { name := "rye"
  , detection_files := ["requirements.lock"]
  , detection_patterns := []
  , install_url := "curl -sSf https://rye-up.com/get | bash"
  , add_cmd := ["rye", "add"]
  , add_dev_cmd := ["rye", "add", "--dev"]
  , remove_cmd := ["rye", "remove"]
  , sync_cmd := ["rye", "sync"]
  , sync_dev_cmd := ["rye", "sync"]
  , run_cmd_ := ["rye", "run"]
  , list_cmd := ["rye", "list"]
  , version_cmd := ["rye", "--version"]
  , clean_files := ["requirements.lock", ".venv"] }

/-- The "hatch" entry registered in `initialize_default_backends`. -/
def hatch_config : BackendConfig :=
  { name := "hatch"
  , detection_files := ["hatch.lock"]
  , detection_patterns := ["[tool.hatch"]
  , install_url := "pipx install hatch"
  , add_cmd := ["hatch", "add"]
  , add_dev_cmd := ["hatch", "add", "--dev"]
  , remove_cmd := ["hatch", "remove"]
  , sync_cmd := ["hatch", "dep", "sync"]
  , sync_dev_cmd := ["hatch", "dep", "sync"]
  , run_cmd_ := ["hatch", "run"]
  , list_cmd := ["hatch", "dep", "show"]
  , version_cmd := ["hatch", "--version"]
  , clean_files := [".venv"] }

/-- Model of `BackendRegistry::backends_` after `initialize_default_backends`: a
`std::map<std::string, unique_ptr<BackendConfig>>` holding the five
registered entries. A `std::map` iterates in ascending lexicographic key
order, so the list below is in that order
(hatch < pdm < poetry < rye < uv), not registration order. -/
def backends_ : List (String × BackendConfig) :=
  [ ("hatch", hatch_config)
  , ("pdm", pdm_config)
  , ("poetry", poetry_config)
  , ("rye", rye_config)
  , ("uv", uv_config) ]

/-- Model of `BackendRegistry::get_backend` (backend_config.cpp): key lookup in the
map, `nullptr` → `none`. -/
def get_backend (name : String) : Option BackendConfig :=
  (backends_.find? (fun p => p.1 == name)).map (fun p => p.2)

/-- Model of `BackendRegistry::get_backend_names` (backend_config.cpp): the keys in
map iteration order. -/
def get_backend_names : List String :=
  backends_.map (fun p => p.1)

/-- Model of `std::string::find(pattern) != npos` on concrete strings: `pattern`
occurs as a contiguous substring of `content`. -/
def contains_substring (content pattern : String) : Bool :=
  content.toList.tails.any (fun t => pattern.toList.isPrefixOf t)

/-- Model of `Engine::detect_backend` (engine.cpp lines 13-41): a first pass over
the registry looking for any existing detection file, then — only if that
found nothing — a single read of `pyproject.toml` scanned for each
backend's detection patterns as substrings. -/
def detect_backend (fs : FS) (project_path_ : String) : Option String :=
  match backends_.find? (fun p =>
      p.2.detection_files.any (fun file =>
        fs.exists_file (project_path_ ++ "/" ++ file))) with
  | some p => some p.1
  | none =>
    if fs.exists_file (project_path_ ++ "/pyproject.toml") then
      match backends_.find? (fun p =>
          p.2.detection_patterns.any (fun pattern =>
            contains_substring (fs.read_file (project_path_ ++ "/pyproject.toml"))
              pattern)) with
      | some p => some p.1
      | none => none
    else
      none

/-- Model of `Engine::resolve_backend` (engine.cpp lines 193-200): a non-empty
explicit hint is returned unchanged; otherwise detection, with `""` for
"nothing detected". -/
def resolve_backend (fs : FS) (project_path_ : String) (backend : String) : String :=
  if backend.isEmpty then
    match detect_backend fs project_path_ with
    | some detected => detected
    | none => ""
  else
    backend

/-- Model of `Engine::substitute_placeholders` (engine.cpp lines 258-266): the
template followed by the caller-supplied arguments; no interior
substitution. -/
def substitute_placeholders (cmd_template args : List String) : List String :=
  cmd_template ++ args

/-- The loop of `Engine::execute_command` (engine.cpp lines 207-219) that
builds the single command string handed to `popen`: tokens joined by a
space, a token containing a space wrapped in double quotes, every other
token inserted verbatim. -/
def render_shell_command (command : List String) : String :=
  String.intercalate " " (command.map (fun tok =>
    if tok.toList.any (fun c => c == ' ') then "\"" ++ tok ++ "\"" else tok))

/-- The tail of `Engine::execute_command` (engine.cpp lines 222-236):
`popen` the string, drain the output, take the `pclose` status as the
exit code, `success = (exit_code == 0)`, and on failure reuse the captured
output as the error text. -/
def popen_capture (exec : Exec) (cmd_str : String) : OperationResult :=
  match exec cmd_str with
  | none => ⟨false, "", "Failed to execute command", 1⟩
  | some (exit_code, output) =>
    ⟨exit_code == 0, output, if exit_code == 0 then "" else output, exit_code⟩

/-- Model of `Engine::execute_command` (engine.cpp lines 202-237). -/
def execute_command (exec : Exec) (command : List String) : OperationResult :=
  if command.isEmpty then
    ⟨false, "", "Empty command", 1⟩
  else
    popen_capture exec (render_shell_command command)

/-- The part of `Engine::add_package` (engine.cpp lines 51-66) that runs
before `execute_command`: resolution and command construction.
`.error r` is the result the function returns without any subprocess;
`.ok cmd` is the argument list it passes to `execute_command`. -/
def add_package_cmd (fs : FS) (project_path_ package : String) (dev : Bool)
    (backend : String) : Except OperationResult (List String) :=
  if (resolve_backend fs project_path_ backend).isEmpty then
    .error ⟨false, "", "No backend found or specified", 1⟩
  else
    match get_backend (resolve_backend fs project_path_ backend) with
    | none =>
      .error ⟨false, "",
        "Backend not found: " ++ resolve_backend fs project_path_ backend, 1⟩
    | some config =>
      .ok (substitute_placeholders
        (if dev then config.add_dev_cmd else config.add_cmd) [package])

/-- Model of `Engine::add_package` (engine.cpp lines 51-66). -/
def add_package (fs : FS) (exec : Exec) (project_path_ package : String)
    (dev : Bool) (backend : String) : OperationResult :=
  match add_package_cmd fs project_path_ package dev backend with
  | .error r => r
  | .ok command => execute_command exec command

/-- The pre-`execute_command` part of `Engine::remove_package`
(engine.cpp lines 68-81). -/
def remove_package_cmd (fs : FS) (project_path_ package backend : String) :
    Except OperationResult (List String) :=
  if (resolve_backend fs project_path_ backend).isEmpty then
    .error ⟨false, "", "No backend found or specified", 1⟩
  else
    match get_backend (resolve_backend fs project_path_ backend) with
    | none =>
      .error ⟨false, "",
        "Backend not found: " ++ resolve_backend fs project_path_ backend, 1⟩
    | some config => .ok (substitute_placeholders config.remove_cmd [package])

/-- Model of `Engine::remove_package` (engine.cpp lines 68-81). -/
def remove_package (fs : FS) (exec : Exec) (project_path_ package backend : String) :
    OperationResult :=
  match remove_package_cmd fs project_path_ package backend with
  | .error r => r
  | .ok command => execute_command exec command

/-- The pre-`execute_command` part of `Engine::sync_packages`
(engine.cpp lines 83-98). -/
def sync_packages_cmd (fs : FS) (project_path_ : String) (dev : Bool)
    (backend : String) : Except OperationResult (List String) :=
  if (resolve_backend fs project_path_ backend).isEmpty then
    .error ⟨false, "", "No backend found or specified", 1⟩
  else
    match get_backend (resolve_backend fs project_path_ backend) with
    | none =>
      .error ⟨false, "",
        "Backend not found: " ++ resolve_backend fs project_path_ backend, 1⟩
    | some config =>
      .ok (substitute_placeholders
        (if dev then config.sync_dev_cmd else config.sync_cmd) [])

/-- Model of `Engine::sync_packages` (engine.cpp lines 83-98). -/
def sync_packages (fs : FS) (exec : Exec) (project_path_ : String) (dev : Bool)
    (backend : String) : OperationResult :=
  match sync_packages_cmd fs project_path_ dev backend with
  | .error r => r
  | .ok command => execute_command exec command

/-- The pre-`execute_command` part of `Engine::run_command`
(engine.cpp lines 100-115): the backend's run template followed by the
caller's argv, token for token. -/
def run_command_cmd (fs : FS) (project_path_ : String) (command : List String)
    (backend : String) : Except OperationResult (List String) :=
  if (resolve_backend fs project_path_ backend).isEmpty then
    .error ⟨false, "", "No backend found or specified", 1⟩
  else
    match get_backend (resolve_backend fs project_path_ backend) with
    | none =>
      .error ⟨false, "",
        "Backend not found: " ++ resolve_backend fs project_path_ backend, 1⟩
    | some config => .ok (config.run_cmd_ ++ command)

/-- Model of `Engine::run_command` (engine.cpp lines 100-115). -/
def run_command (fs : FS) (exec : Exec) (project_path_ : String)
    (command : List String) (backend : String) : OperationResult :=
  match run_command_cmd fs project_path_ command backend with
  | .error r => r
  | .ok full_command => execute_command exec full_command

/-- The pre-`execute_command` part of `Engine::list_packages`
(engine.cpp lines 117-129). -/
def list_packages_cmd (fs : FS) (project_path_ backend : String) :
    Except OperationResult (List String) :=
  if (resolve_backend fs project_path_ backend).isEmpty then
    .error ⟨false, "", "No backend found or specified", 1⟩
  else
    match get_backend (resolve_backend fs project_path_ backend) with
    | none =>
      .error ⟨false, "",
        "Backend not found: " ++ resolve_backend fs project_path_ backend, 1⟩
    | some config => .ok config.list_cmd

/-- Model of `Engine::list_packages` (engine.cpp lines 117-129). -/
def list_packages (fs : FS) (exec : Exec) (project_path_ backend : String) :
    OperationResult :=
  match list_packages_cmd fs project_path_ backend with
  | .error r => r
  | .ok command => execute_command exec command

/-- The pre-`execute_command` part of `Engine::get_version`
(engine.cpp lines 131-143). -/
def get_version_cmd (fs : FS) (project_path_ backend : String) :
    Except OperationResult (List String) :=
  if (resolve_backend fs project_path_ backend).isEmpty then
    .error ⟨false, "", "No backend found or specified", 1⟩
  else
    match get_backend (resolve_backend fs project_path_ backend) with
    | none =>
      .error ⟨false, "",
        "Backend not found: " ++ resolve_backend fs project_path_ backend, 1⟩
    | some config => .ok config.version_cmd

/-- Model of `Engine::get_version` (engine.cpp lines 131-143). -/
def get_version (fs : FS) (exec : Exec) (project_path_ backend : String) :
    OperationResult :=
  match get_version_cmd fs project_path_ backend with
  | .error r => r
  | .ok command => execute_command exec command

/-- One iteration of the cleanup loop in `Engine::clean_project`
(engine.cpp lines 159-170), threading the accumulated output text and the
success flag: an existing path is deleted and logged as removed, a thrown
deletion error is logged and flips the flag, a missing path is skipped. -/
def clean_step (fs : FS) (del : Del) (project_path_ : String)
    (acc : String × Bool) (file : String) : String × Bool :=
  if fs.exists_file (project_path_ ++ "/" ++ file) then
    match del (project_path_ ++ "/" ++ file) with
    | none => (acc.1 ++ "Removed: " ++ file ++ "\n", acc.2)
    | some e => (acc.1 ++ "Failed to remove " ++ file ++ ": " ++ e ++ "\n", false)
  else
    acc

/-- Model of `Engine::clean_project` (engine.cpp lines 145-173): resolution
prologue, then the cleanup loop over `clean_files`, then a result whose
output is the accumulated log, whose error text is empty, and whose exit
code is 0 exactly when no deletion failed. -/
def clean_project (fs : FS) (del : Del) (project_path_ backend : String) :
    OperationResult :=
  if (resolve_backend fs project_path_ backend).isEmpty then
    ⟨false, "", "No backend found or specified", 1⟩
  else
    match get_backend (resolve_backend fs project_path_ backend) with
    | none =>
      ⟨false, "", "Backend not found: " ++ resolve_backend fs project_path_ backend, 1⟩
    | some config =>
      match config.clean_files.foldl (clean_step fs del project_path_) ("", true) with
      | (output, success) => ⟨success, output, "", if success then 0 else 1⟩

/-- Model of `Engine::get_install_command` (engine.cpp lines 175-178). -/
def get_install_command (backend : String) : String :=
  match get_backend backend with
  | some config => config.install_url
  | none => ""

/-- Model of `Engine::get_clean_files` (engine.cpp lines 180-183). -/
def get_clean_files (backend : String) : List String :=
  match get_backend backend with
  | some config => config.clean_files
  | none => []

/-! Specification-side descriptions used to state theorems about the
cleanup loop: the log line produced for one cleanup path, whether the
attempt on one path succeeds, and the full accumulated log. -/

/-- The log line the cleanup loop produces for one path: a `Removed:`
line for an existing path whose deletion succeeds, a `Failed to remove`
line when the deletion throws, nothing for a missing path. -/
def clean_line (fs : FS) (del : Del) (project_path_ file : String) : String :=
  if fs.exists_file (project_path_ ++ "/" ++ file) then
    match del (project_path_ ++ "/" ++ file) with
    | none => "Removed: " ++ file ++ "\n"
    | some e => "Failed to remove " ++ file ++ ": " ++ e ++ "\n"
  else
    ""

/-- Whether the cleanup attempt on one path leaves the success flag
intact: the path is missing, or its deletion does not throw. -/
def clean_ok (fs : FS) (del : Del) (project_path_ file : String) : Bool :=
  !(fs.exists_file (project_path_ ++ "/" ++ file)) ||
    (del (project_path_ ++ "/" ++ file)).isNone

/-- The accumulated cleanup log over a list of paths, in declared order. -/
def clean_log (fs : FS) (del : Del) (project_path_ : String) : List String → String
  | [] => ""
  | file :: rest =>
    clean_line fs del project_path_ file ++ clean_log fs del project_path_ rest

/-! Concrete fixtures used by witnesses and counterexamples. -/

/-- An empty project directory: no files at all. -/
def fs_empty : FS := ⟨fun _ => false, fun _ => ""⟩

/-- A project at `/p` containing both `uv.lock` and a `pyproject.toml`
whose text contains the substring "poetry". -/
def fs_uv_poetry : FS :=
  ⟨fun path => path == "/p/uv.lock" || path == "/p/pyproject.toml",
   fun path =>
     if path == "/p/pyproject.toml" then
       "[tool.poetry]\nname = demo\npoetry project"
     else ""⟩

/-- A project at `/p` containing both `pdm.lock` and `uv.lock`. -/
def fs_pdm_uv : FS :=
  ⟨fun path => path == "/p/pdm.lock" || path == "/p/uv.lock", fun _ => ""⟩

/-- A project at `/p` containing `poetry.lock` and `.venv`. -/
def fs_poetry_venv : FS :=
  ⟨fun path => path == "/p/poetry.lock" || path == "/p/.venv", fun _ => ""⟩

/-- An execution service whose child process exits with status 1 and
produces no output at all. -/
def exec_silent_failure : Exec := fun _ => some (1, "")

/-- An execution service that succeeds and echoes the received shell
string back as the captured output, exposing exactly what was handed to
`popen`. -/
def exec_echo : Exec := fun cmd_str => some (0, cmd_str)

/-- A deletion service for which removing `/p/poetry.lock` throws
"permission denied" and every other removal succeeds. -/
def del_poetry_lock_fails : Del :=
  fun path => if path == "/p/poetry.lock" then some "permission denied" else none

/-! Helper lemmas shared by the claim theorems. -/

/-- The result `execute_command` builds always has `success` equal to
`exit_code == 0`. -/
theorem execute_command_success_iff (exec : Exec) (command : List String) :
    (execute_command exec command).success =
      ((execute_command exec command).exit_code == 0) := by
  unfold execute_command popen_capture
  split
  · rfl
  · split
    · rfl
    · rfl

/-- Helper: `resolve_backend` returns a non-empty explicit hint unchanged. -/
theorem resolve_backend_of_ne_empty (fs : FS) (project_path_ backend : String)
    (h : backend ≠ "") : resolve_backend fs project_path_ backend = backend := by
  unfold resolve_backend
  simp [String.isEmpty_iff, h]

/-- Helper: `resolve_backend` with no hint and failed detection returns `""`. -/
theorem resolve_backend_empty_of_none (fs : FS) (project_path_ : String)
    (h : detect_backend fs project_path_ = none) :
    resolve_backend fs project_path_ "" = "" := by
  unfold resolve_backend
  rw [h]
  rfl

theorem add_package_success_iff (fs : FS) (exec : Exec)
    (pp package backend : String) (dev : Bool) :
    (add_package fs exec pp package dev backend).success =
      ((add_package fs exec pp package dev backend).exit_code == 0) := by
  unfold add_package add_package_cmd
  split
  next r heq =>
    split at heq
    · cases heq; rfl
    · split at heq
      · cases heq; rfl
      · cases heq
  next cmd heq => exact execute_command_success_iff exec cmd

theorem remove_package_success_iff (fs : FS) (exec : Exec)
    (pp package backend : String) :
    (remove_package fs exec pp package backend).success =
      ((remove_package fs exec pp package backend).exit_code == 0) := by
  unfold remove_package remove_package_cmd
  split
  next r heq =>
    split at heq
    · cases heq; rfl
    · split at heq
      · cases heq; rfl
      · cases heq
  next cmd heq => exact execute_command_success_iff exec cmd

theorem sync_packages_success_iff (fs : FS) (exec : Exec)
    (pp backend : String) (dev : Bool) :
    (sync_packages fs exec pp dev backend).success =
      ((sync_packages fs exec pp dev backend).exit_code == 0) := by
  unfold sync_packages sync_packages_cmd
  split
  next r heq =>
    split at heq
    · cases heq; rfl
    · split at heq
      · cases heq; rfl
      · cases heq
  next cmd heq => exact execute_command_success_iff exec cmd

theorem run_command_success_iff (fs : FS) (exec : Exec)
    (pp backend : String) (argv : List String) :
    (run_command fs exec pp argv backend).success =
      ((run_command fs exec pp argv backend).exit_code == 0) := by
  unfold run_command run_command_cmd
  split
  next r heq =>
    split at heq
    · cases heq; rfl
    · split at heq
      · cases heq; rfl
      · cases heq
  next cmd heq => exact execute_command_success_iff exec cmd

theorem list_packages_success_iff (fs : FS) (exec : Exec)
    (pp backend : String) :
    (list_packages fs exec pp backend).success =
      ((list_packages fs exec pp backend).exit_code == 0) := by
  unfold list_packages list_packages_cmd
  split
  next r heq =>
    split at heq
    · cases heq; rfl
    · split at heq
      · cases heq; rfl
      · cases heq
  next cmd heq => exact execute_command_success_iff exec cmd

theorem get_version_success_iff (fs : FS) (exec : Exec)
    (pp backend : String) :
    (get_version fs exec pp backend).success =
      ((get_version fs exec pp backend).exit_code == 0) := by
  unfold get_version get_version_cmd
  split
  next r heq =>
    split at heq
    · cases heq; rfl
    · split at heq
      · cases heq; rfl
      · cases heq
  next cmd heq => exact execute_command_success_iff exec cmd

theorem clean_project_success_iff (fs : FS) (del : Del) (pp backend : String) :
    (clean_project fs del pp backend).success =
      ((clean_project fs del pp backend).exit_code == 0) := by
  unfold clean_project
  split
  · rfl
  · split
    · rfl
    · next config heq =>
      rcases h : config.clean_files.foldl (clean_step fs del pp) ("", true) with ⟨o, s⟩
      cases s <;> rfl

/-- The cleanup loop is a fold whose first component accumulates the log
and whose second component records whether every attempted deletion
succeeded. -/
theorem clean_foldl_spec (fs : FS) (del : Del) (pp : String) :
    ∀ (files : List String) (acc : String × Bool),
      files.foldl (clean_step fs del pp) acc =
        (acc.1 ++ clean_log fs del pp files,
         acc.2 && files.all (clean_ok fs del pp)) := by
  intro files
  induction files with
  | nil =>
    intro acc
    simp [clean_log, String.append_empty]
  | cons f rest ih =>
    intro acc
    rw [List.foldl_cons, ih]
    simp only [clean_log, List.all_cons]
    unfold clean_step clean_line clean_ok
    split
    · next hex =>
      split
      · next hdel =>
        simp only [String.append_assoc] at hex hdel
        simp [hex, hdel, String.append_assoc, Bool.and_assoc]
      · next e hdel =>
        simp only [String.append_assoc] at hex hdel
        simp [hex, hdel, String.append_assoc, Bool.and_assoc]
    · next hex =>
      simp only [Bool.not_eq_true] at hex
      simp only [String.append_assoc] at hex
      simp [hex, String.append_assoc, Bool.and_assoc, String.empty_append]

/-- When the first detection pass finds an entry, `detect_backend`
returns its key. -/
theorem detect_backend_of_first_pass (fs : FS) (pp : String)
    (q : String × BackendConfig)
    (h : backends_.find? (fun p =>
        p.2.detection_files.any (fun file =>
          fs.exists_file (pp ++ "/" ++ file))) = some q) :
    detect_backend fs pp = some q.1 := by
  unfold detect_backend
  rw [h]

/-- Helper: `find?` on a list whose keys are strictly increasing returns, when
some member satisfies the predicate, an entry whose key is no larger than
that member's key. -/
theorem find?_min_key {α : Type} (p : String × α → Bool) :
    ∀ (l : List (String × α)), l.Pairwise (fun a b => a.1 < b.1) →
      ∀ x ∈ l, p x = true → ∃ y, l.find? p = some y ∧ y.1 ≤ x.1 := by
  intro l
  induction l with
  | nil => intro _ x hx; cases hx
  | cons a t ih =>
    intro hp x hx hpx
    rcases List.pairwise_cons.mp hp with ⟨ha, ht⟩
    cases hpa : p a with
    | true =>
      refine ⟨a, List.find?_cons_of_pos _ hpa, ?_⟩
      rcases List.mem_cons.mp hx with rfl | hxt
      · exact le_refl _
      · exact le_of_lt (ha x hxt)
    | false =>
      rcases List.mem_cons.mp hx with rfl | hxt
      · rw [hpa] at hpx; cases hpx
      · rcases ih ht x hxt hpx with ⟨y, hy, hle⟩
        refine ⟨y, ?_, hle⟩
        rw [List.find?_cons_of_neg _ (by simp [hpa])]
        exact hy

/-- Helper: `get_backend` only returns entries of the registry, paired with the
key under which they are registered. -/
theorem get_backend_mem (backend : String) (config : BackendConfig)
    (h : get_backend backend = some config) : (backend, config) ∈ backends_ := by
  unfold get_backend at h
  rcases ho : backends_.find? (fun p => p.1 == backend) with _ | y
  · rw [ho] at h; cases h
  · rw [ho] at h
    have hy2 : y.2 = config := by simpa using h
    have hp := List.find?_some ho
    have hy1 : y.1 = backend := by simpa using hp
    have hmem := List.mem_of_find?_eq_some ho
    rcases y with ⟨y1, y2⟩
    cases hy1
    cases hy2
    exact hmem

/-- Keys of the registry are strictly increasing in iteration order. -/
theorem backends_pairwise_lt :
    backends_.Pairwise (fun a b => a.1 < b.1) := by
  unfold backends_
  refine List.Pairwise.cons ?_ (List.Pairwise.cons ?_ (List.Pairwise.cons ?_
    (List.Pairwise.cons ?_ (List.Pairwise.cons ?_ List.Pairwise.nil)))) <;>
    intro b hb <;>
    simp only [List.mem_cons, List.not_mem_nil, or_false] at hb <;>
    rcases hb with rfl | rfl | rfl | rfl <;>
    (rw [String.lt_iff_toList_lt]; decide)

/-! Claim theorems. -/

/-- C6: command rendering concatenates the chosen template with the
caller-supplied arguments appended at the end, with no interior
placeholder substitution; in particular `add("requests", dev=false,
backend="uv")` renders `["uv", "add", "requests"]`, with `dev=true` it
renders `["uv", "add", "--group", "dev", "requests"]`, and
`run(["pytest", "-v"], backend="pdm")` renders
`["pdm", "run", "pytest", "-v"]`. -/
theorem template_rendering_appends_args :
    (∀ (fs : FS) (pp : String),
      add_package_cmd fs pp "requests" false "uv" =
        .ok ["uv", "add", "requests"]) ∧
    (∀ (fs : FS) (pp : String),
      add_package_cmd fs pp "requests" true "uv" =
        .ok ["uv", "add", "--group", "dev", "requests"]) ∧
    (∀ (fs : FS) (pp : String),
      run_command_cmd fs pp ["pytest", "-v"] "pdm" =
        .ok ["pdm", "run", "pytest", "-v"]) ∧
    (∀ (cmd_template args : List String),
      substitute_placeholders cmd_template args = cmd_template ++ args) :=
  ⟨fun _ _ => rfl, fun _ _ => rfl, fun _ _ => rfl, fun _ _ => rfl⟩

/-- C7: a non-empty explicit backend id is returned unchanged by
resolution, for every filesystem and project path — neither the catalog
nor detection is consulted (the result does not depend on `fs`). -/
theorem resolve_explicit_hint_trusted (fs : FS) (pp backend : String)
    (h : backend ≠ "") : resolve_backend fs pp backend = backend :=
  resolve_backend_of_ne_empty fs pp backend h

/-- Witness for C7: `resolve("poetry")` returns "poetry" on a project
whose files signal "uv". -/
theorem resolve_explicit_hint_trusted_witness :
    resolve_backend fs_uv_poetry "/p" "poetry" = "poetry" ∧
    detect_backend fs_uv_poetry "/p" = some "uv" :=
  ⟨resolve_explicit_hint_trusted fs_uv_poetry "/p" "poetry" (by decide), rfl⟩

/-- C9: `get_clean_files` returns exactly the registered descriptor's
`clean_files` for every catalog entry and `[]` for an unregistered id;
`get_install_command` likewise returns `install_url`, or `""` for an
unknown id. Both are direct catalog lookups (no `fs` argument exists, so
no resolution or detection is involved). -/
theorem catalog_lookup_round_trip :
    (backends_.all (fun p =>
      (get_clean_files p.1 == p.2.clean_files) &&
      (get_install_command p.1 == p.2.install_url)) = true) ∧
    ∀ backend : String, get_backend backend = none →
      get_clean_files backend = [] ∧ get_install_command backend = "" := by
  refine ⟨rfl, fun backend h => ?_⟩
  unfold get_clean_files get_install_command
  rw [h]
  exact ⟨rfl, rfl⟩

/-- Witness for C9: "npm" is not registered, so both lookups return the
empty value. -/
theorem catalog_lookup_round_trip_witness :
    get_clean_files "npm" = [] ∧ get_install_command "npm" = "" :=
  catalog_lookup_round_trip.2 "npm" rfl

/-- C10: every registry entry is stored under its own `name` field and is
returned by `get_backend` of that name; the keys are pairwise distinct;
and each of the eight command templates of every entry is a non-empty
token list. -/
theorem catalog_invariants :
    (backends_.all (fun p =>
      (p.2.name == p.1) && (get_backend p.1 == some p.2)) = true) ∧
    (backends_.map (fun p => p.1)).Nodup ∧
    (backends_.all (fun p =>
      !p.2.add_cmd.isEmpty && !p.2.add_dev_cmd.isEmpty &&
      !p.2.remove_cmd.isEmpty && !p.2.sync_cmd.isEmpty &&
      !p.2.sync_dev_cmd.isEmpty && !p.2.run_cmd_.isEmpty &&
      !p.2.list_cmd.isEmpty && !p.2.version_cmd.isEmpty) = true) := by
  refine ⟨rfl, by decide, rfl⟩

/-- C2 (amended): for every operation and every environment, the returned
result has `success` equal to `exit_code == 0`. (The claim's further
assertion that a failed result always carries non-empty diagnostic text
is refuted by `silent_failure_has_empty_error_text`: nothing is
synthesized when the child process produces no output, and
`clean_project` reports its failures in `output`, never in `error`.) -/
theorem op_success_iff_exit_code_zero :
    ∀ (fs : FS) (exec : Exec) (del : Del) (pp package backend : String)
      (dev : Bool) (argv : List String),
      ((add_package fs exec pp package dev backend).success =
        ((add_package fs exec pp package dev backend).exit_code == 0)) ∧
      ((remove_package fs exec pp package backend).success =
        ((remove_package fs exec pp package backend).exit_code == 0)) ∧
      ((sync_packages fs exec pp dev backend).success =
        ((sync_packages fs exec pp dev backend).exit_code == 0)) ∧
      ((run_command fs exec pp argv backend).success =
        ((run_command fs exec pp argv backend).exit_code == 0)) ∧
      ((list_packages fs exec pp backend).success =
        ((list_packages fs exec pp backend).exit_code == 0)) ∧
      ((get_version fs exec pp backend).success =
        ((get_version fs exec pp backend).exit_code == 0)) ∧
      ((clean_project fs del pp backend).success =
        ((clean_project fs del pp backend).exit_code == 0)) :=
  fun fs exec del pp package backend dev argv =>
    ⟨add_package_success_iff fs exec pp package backend dev,
     remove_package_success_iff fs exec pp package backend,
     sync_packages_success_iff fs exec pp backend dev,
     run_command_success_iff fs exec pp backend argv,
     list_packages_success_iff fs exec pp backend,
     get_version_success_iff fs exec pp backend,
     clean_project_success_iff fs del pp backend⟩

/-- Counterexample to C2's non-empty-diagnostic clause: a child process
that exits with status 1 and produces no output yields a failed result
whose error text is empty (`execute_command` reuses the captured output
as the error text without synthesizing anything), and a failed
`clean_project` also has empty error text (its diagnostics go to
`output`). -/
theorem silent_failure_has_empty_error_text :
    (add_package fs_empty exec_silent_failure "/p" "requests" false "uv").success
      = false ∧
    (add_package fs_empty exec_silent_failure "/p" "requests" false "uv").error
      = "" ∧
    (add_package fs_empty exec_silent_failure "/p" "requests" false "uv").exit_code
      = 1 ∧
    (clean_project fs_poetry_venv del_poetry_lock_fails "/p" "poetry").success
      = false ∧
    (clean_project fs_poetry_venv del_poetry_lock_fails "/p" "poetry").error
      = "" :=
  ⟨rfl, rfl, rfl, rfl, rfl⟩

/-- C3: detection runs two passes in order — a first pass returning the
first registry entry any of whose detection files exists; only when that
pass finds nothing and `pyproject.toml` exists, a second pass over the
patterns applied to the single read of the manifest; absent otherwise.
For a project with both `uv.lock` and a `pyproject.toml` containing
"poetry", detection returns "uv". -/
theorem detect_backend_two_pass :
    (∀ (fs : FS) (pp : String) (q : String × BackendConfig),
      backends_.find? (fun p => p.2.detection_files.any (fun file =>
        fs.exists_file (pp ++ "/" ++ file))) = some q →
      detect_backend fs pp = some q.1) ∧
    (∀ (fs : FS) (pp : String),
      backends_.find? (fun p => p.2.detection_files.any (fun file =>
        fs.exists_file (pp ++ "/" ++ file))) = none →
      detect_backend fs pp =
        (if fs.exists_file (pp ++ "/pyproject.toml") then
          Option.map (fun p => p.1) (backends_.find? (fun p =>
            p.2.detection_patterns.any (fun pattern =>
              contains_substring (fs.read_file (pp ++ "/pyproject.toml"))
                pattern)))
        else none)) ∧
    detect_backend fs_uv_poetry "/p" = some "uv" := by
  refine ⟨fun fs pp q h => detect_backend_of_first_pass fs pp q h,
    fun fs pp h => ?_, rfl⟩
  unfold detect_backend
  rw [h]
  dsimp only
  split
  · rcases hf : backends_.find? (fun p =>
        p.2.detection_patterns.any (fun pattern =>
          contains_substring (fs.read_file (pp ++ "/pyproject.toml"))
            pattern)) with _ | y
    · rw [hf]
      rfl
    · rw [hf]
      rfl
  · rfl

/-- Witness for C3: on the project with both `pdm.lock` and `uv.lock`,
the first pass finds the ("pdm", pdm_config) entry, so detection returns
"pdm". -/
theorem detect_backend_two_pass_witness :
    detect_backend fs_pdm_uv "/p" = some "pdm" :=
  detect_backend_two_pass.1 fs_pdm_uv "/p" ("pdm", pdm_config) rfl

/-- C8: detection depends only on the filesystem state (two calls on an
unchanged directory agree); registry iteration order is the ascending
lexicographic order of the backend ids (hatch < pdm < poetry < rye < uv),
so whenever several entries carry a strong file signal the
lexicographically smallest matching id wins; in particular a project with
both `pdm.lock` and `uv.lock` detects as "pdm". -/
theorem detection_deterministic_and_lexicographic :
    (∀ (fs1 fs2 : FS) (pp : String),
      (∀ path, fs1.exists_file path = fs2.exists_file path) →
      (∀ path, fs1.read_file path = fs2.read_file path) →
      detect_backend fs1 pp = detect_backend fs2 pp) ∧
    get_backend_names = ["hatch", "pdm", "poetry", "rye", "uv"] ∧
    List.Chain' (fun a b : String => a < b) get_backend_names ∧
    (∀ (fs : FS) (pp n : String) (config : BackendConfig),
      (n, config) ∈ backends_ →
      config.detection_files.any (fun file =>
        fs.exists_file (pp ++ "/" ++ file)) = true →
      ∃ m, detect_backend fs pp = some m ∧ m ≤ n) ∧
    detect_backend fs_pdm_uv "/p" = some "pdm" := by
  refine ⟨?_, rfl, ?_, ?_, rfl⟩
  · intro fs1 fs2 pp he hr
    have : fs1 = fs2 := by
      cases fs1
      cases fs2
      congr 1
      · funext path
        exact he path
      · funext path
        exact hr path
    rw [this]
  · refine List.chain'_cons.mpr ⟨?_, List.chain'_cons.mpr ⟨?_,
      List.chain'_cons.mpr ⟨?_, List.chain'_cons.mpr ⟨?_,
        List.chain'_singleton _⟩⟩⟩⟩ <;>
      (rw [String.lt_iff_toList_lt]; decide)
  · intro fs pp n config hmem hstrong
    rcases find?_min_key (fun p =>
        p.2.detection_files.any (fun file =>
          fs.exists_file (pp ++ "/" ++ file))) backends_ backends_pairwise_lt
        (n, config) hmem hstrong with ⟨y, hy, hle⟩
    exact ⟨y.1, detect_backend_of_first_pass fs pp y hy, hle⟩

/-- Witness for C8: on the project with both `pdm.lock` and `uv.lock`,
the ("uv", uv_config) entry carries a strong signal, and the detected id
is lexicographically no larger than "uv". -/
theorem detection_deterministic_and_lexicographic_witness :
    ∃ m, detect_backend fs_pdm_uv "/p" = some m ∧ m ≤ "uv" :=
  detection_deterministic_and_lexicographic.2.2.2.1 fs_pdm_uv "/p" "uv"
    uv_config (by decide) rfl

/-- C5: with a resolved backend, `clean_project` walks the descriptor's
`clean_files` in declared order, logging a "Removed: <path>" line for
each existing path it deletes and a "Failed to remove <path>: <reason>"
line for each deletion that throws, continuing past failures; the result
carries the accumulated log as output, and `success` (with exit code 0)
holds exactly when every attempted deletion succeeded. -/
theorem clean_project_partial_failure :
    ∀ (fs : FS) (del : Del) (pp backend : String) (config : BackendConfig),
      resolve_backend fs pp backend ≠ "" →
      get_backend (resolve_backend fs pp backend) = some config →
      (clean_project fs del pp backend).output =
        clean_log fs del pp config.clean_files ∧
      ((clean_project fs del pp backend).success = true ↔
        ∀ file ∈ config.clean_files,
          fs.exists_file (pp ++ "/" ++ file) = true →
          del (pp ++ "/" ++ file) = none) ∧
      (clean_project fs del pp backend).exit_code =
        (if (clean_project fs del pp backend).success then 0 else 1) ∧
      (clean_project fs del pp backend).error = "" := by
  intro fs del pp backend config hne hcfg
  have hc : clean_project fs del pp backend =
      ⟨config.clean_files.all (clean_ok fs del pp),
       clean_log fs del pp config.clean_files, "",
       if config.clean_files.all (clean_ok fs del pp) then 0 else 1⟩ := by
    unfold clean_project
    rw [if_neg (by simp [String.isEmpty_iff, hne]), hcfg]
    dsimp only
    rw [clean_foldl_spec]
    simp [String.empty_append, Bool.true_and]
  rw [hc]
  refine ⟨rfl, ?_, rfl, rfl⟩
  simp only [List.all_eq_true, clean_ok, Bool.or_eq_true, Bool.not_eq_true',
    Option.isNone_iff_eq_none]
  constructor
  · intro hall file hf he
    rcases hall file hf with h | h
    · rw [he] at h
      cases h
    · exact h
  · intro hall file hf
    by_cases he : fs.exists_file (pp ++ "/" ++ file) = true
    · exact Or.inr (hall file hf he)
    · exact Or.inl (by simpa using he)

/-- Witness for C5: on a project with `poetry.lock` and `.venv` where
deleting `poetry.lock` throws "permission denied" and deleting `.venv`
succeeds, the log has one Failed line followed by one Removed line, and
the result is a failure with exit code 1. -/
theorem clean_project_partial_failure_witness :
    ((clean_project fs_poetry_venv del_poetry_lock_fails "/p" "poetry").success
        = true ↔
      ∀ file ∈ poetry_config.clean_files,
        fs_poetry_venv.exists_file ("/p" ++ "/" ++ file) = true →
        del_poetry_lock_fails ("/p" ++ "/" ++ file) = none) ∧
    (clean_project fs_poetry_venv del_poetry_lock_fails "/p" "poetry").output =
      "Failed to remove poetry.lock: permission denied\nRemoved: .venv\n" ∧
    (clean_project fs_poetry_venv del_poetry_lock_fails "/p" "poetry").success
      = false ∧
    (clean_project fs_poetry_venv del_poetry_lock_fails "/p" "poetry").exit_code
      = 1 :=
  ⟨(clean_project_partial_failure fs_poetry_venv del_poetry_lock_fails "/p"
      "poetry" poetry_config (by decide) rfl).2.1, rfl, rfl, rfl⟩

/-- C4 (amended): when no hint is given and detection fails, every
operation returns `⟨false, "", "No backend found or specified", 1⟩`
(note the capital "N", unlike the claim's quoted lowercase text), and
when an explicit hint names an unregistered backend every operation
returns `⟨false, "", "Backend not found: <hint>", 1⟩`; in both cases the
result is a fixed value independent of the execution and deletion
services, i.e. no subprocess is invoked and nothing is deleted. -/
theorem resolution_failure_short_circuits :
    ∀ (fs : FS) (exec : Exec) (del : Del) (pp package : String) (dev : Bool)
      (argv : List String),
      (detect_backend fs pp = none →
        add_package fs exec pp package dev "" =
          ⟨false, "", "No backend found or specified", 1⟩ ∧
        remove_package fs exec pp package "" =
          ⟨false, "", "No backend found or specified", 1⟩ ∧
        sync_packages fs exec pp dev "" =
          ⟨false, "", "No backend found or specified", 1⟩ ∧
        run_command fs exec pp argv "" =
          ⟨false, "", "No backend found or specified", 1⟩ ∧
        list_packages fs exec pp "" =
          ⟨false, "", "No backend found or specified", 1⟩ ∧
        get_version fs exec pp "" =
          ⟨false, "", "No backend found or specified", 1⟩ ∧
        clean_project fs del pp "" =
          ⟨false, "", "No backend found or specified", 1⟩) ∧
      (∀ backend : String, backend ≠ "" → get_backend backend = none →
        add_package fs exec pp package dev backend =
          ⟨false, "", "Backend not found: " ++ backend, 1⟩ ∧
        remove_package fs exec pp package backend =
          ⟨false, "", "Backend not found: " ++ backend, 1⟩ ∧
        sync_packages fs exec pp dev backend =
          ⟨false, "", "Backend not found: " ++ backend, 1⟩ ∧
        run_command fs exec pp argv backend =
          ⟨false, "", "Backend not found: " ++ backend, 1⟩ ∧
        list_packages fs exec pp backend =
          ⟨false, "", "Backend not found: " ++ backend, 1⟩ ∧
        get_version fs exec pp backend =
          ⟨false, "", "Backend not found: " ++ backend, 1⟩ ∧
        clean_project fs del pp backend =
          ⟨false, "", "Backend not found: " ++ backend, 1⟩) := by
  intro fs exec del pp package dev argv
  constructor
  · intro hdet
    have hr := resolve_backend_empty_of_none fs pp hdet
    refine ⟨?_, ?_, ?_, ?_, ?_, ?_, ?_⟩
    · unfold add_package add_package_cmd
      rw [hr]
      rfl
    · unfold remove_package remove_package_cmd
      rw [hr]
      rfl
    · unfold sync_packages sync_packages_cmd
      rw [hr]
      rfl
    · unfold run_command run_command_cmd
      rw [hr]
      rfl
    · unfold list_packages list_packages_cmd
      rw [hr]
      rfl
    · unfold get_version get_version_cmd
      rw [hr]
      rfl
    · unfold clean_project
      rw [hr]
      rfl
  · intro backend hne hnb
    have hr := resolve_backend_of_ne_empty fs pp backend hne
    have hie : backend.isEmpty = false := by
      cases h : backend.isEmpty
      · rfl
      · exact absurd ((String.isEmpty_iff backend).mp h) hne
    refine ⟨?_, ?_, ?_, ?_, ?_, ?_, ?_⟩
    · unfold add_package add_package_cmd
      rw [hr, hie, hnb]
      rfl
    · unfold remove_package remove_package_cmd
      rw [hr, hie, hnb]
      rfl
    · unfold sync_packages sync_packages_cmd
      rw [hr, hie, hnb]
      rfl
    · unfold run_command run_command_cmd
      rw [hr, hie, hnb]
      rfl
    · unfold list_packages list_packages_cmd
      rw [hr, hie, hnb]
      rfl
    · unfold get_version get_version_cmd
      rw [hr, hie, hnb]
      rfl
    · unfold clean_project
      rw [hr, hie, hnb]
      rfl

/-- Witness for C4 (amended): on an empty project with no hint, and with
the unknown hint "npm", `add_package` returns the two fixed failure
results. -/
theorem resolution_failure_short_circuits_witness :
    add_package fs_empty exec_echo "/p" "requests" false "" =
      ⟨false, "", "No backend found or specified", 1⟩ ∧
    add_package fs_empty exec_echo "/p" "requests" false "npm" =
      ⟨false, "", "Backend not found: npm", 1⟩ :=
  ⟨((resolution_failure_short_circuits fs_empty exec_echo (fun _ => none)
      "/p" "requests" false []).1 rfl).1,
   (((resolution_failure_short_circuits fs_empty exec_echo (fun _ => none)
      "/p" "requests" false []).2) "npm" (by decide) rfl).1⟩

/-- Counterexample to C4 as stated: the no-backend diagnostic produced by
the code is "No backend found or specified" with a capital "N", not the
claim's quoted "no backend found or specified". -/
theorem no_backend_diagnostic_is_capitalized :
    detect_backend fs_empty "/p" = none ∧
    (add_package fs_empty exec_echo "/p" "requests" false "").error =
      "No backend found or specified" ∧
    (add_package fs_empty exec_echo "/p" "requests" false "").error ≠
      "no backend found or specified" :=
  ⟨rfl, rfl, by decide⟩

/-- Counterexample to C1: the engine does NOT hand the execution service
an ordered list of discrete tokens — `execute_command` concatenates the
argument list into one shell string (quoting only tokens that contain a
space) and gives that string to `popen`. Two different run argument
lists — `["echo", "a b"]` and `["echo", "\"a", "b\""]` — produce the very
same shell string `pdm run echo "a b"`, so the child process cannot
receive the tokens literally; even an exec service that faithfully echoes
what it was handed returns identical results for the two calls. -/
theorem run_tokens_not_transmitted_literally :
    (["echo", "a b"] ≠ ["echo", "\"a", "b\""]) ∧
    run_command_cmd fs_empty "/p" ["echo", "a b"] "pdm" =
      .ok ["pdm", "run", "echo", "a b"] ∧
    run_command_cmd fs_empty "/p" ["echo", "\"a", "b\""] "pdm" =
      .ok ["pdm", "run", "echo", "\"a", "b\""] ∧
    render_shell_command ["pdm", "run", "echo", "a b"] =
      "pdm run echo \"a b\"" ∧
    render_shell_command ["pdm", "run", "echo", "\"a", "b\""] =
      "pdm run echo \"a b\"" ∧
    run_command fs_empty exec_echo "/p" ["echo", "a b"] "pdm" =
      run_command fs_empty exec_echo "/p" ["echo", "\"a", "b\""] "pdm" :=
  ⟨by decide, rfl, rfl, rfl, rfl, rfl⟩

/-- C1 (amended): each delegating operation hands the execution service a
single shell string obtained by joining the rendered argument list with
spaces, wrapping a token in double quotes only when it contains a space
and inserting every other token verbatim (so shell metacharacters are
re-parsed by the shell rather than transmitted literally). Shown for
`run` under every registered backend and for `add` under "uv"; the third
conjunct exhibits the exact pipeline: resolution, template append, then
`popen` on the rendered string. -/
theorem delegation_concatenates_single_shell_string :
    (∀ (fs : FS) (exec : Exec) (pp : String) (argv : List String),
      run_command fs exec pp argv "pdm" =
        popen_capture exec (render_shell_command (["pdm", "run"] ++ argv))) ∧
    (∀ (fs : FS) (exec : Exec) (pp package : String) (dev : Bool),
      add_package fs exec pp package dev "uv" =
        popen_capture exec (render_shell_command
          ((if dev then ["uv", "add", "--group", "dev"] else ["uv", "add"]) ++
            [package]))) ∧
    (∀ (fs : FS) (exec : Exec) (pp backend : String) (argv : List String)
        (config : BackendConfig),
      backend ≠ "" → get_backend backend = some config →
      run_command fs exec pp argv backend =
        popen_capture exec (render_shell_command (config.run_cmd_ ++ argv))) := by
  refine ⟨fun fs exec pp argv => rfl,
    fun fs exec pp package dev => by cases dev <;> rfl,
    fun fs exec pp backend argv config hne hcfg => ?_⟩
  have hmem := get_backend_mem backend config hcfg
  have hie : backend.isEmpty = false := by
    cases h : backend.isEmpty
    · rfl
    · exact absurd ((String.isEmpty_iff backend).mp h) hne
  have hr := resolve_backend_of_ne_empty fs pp backend hne
  unfold run_command run_command_cmd
  rw [hr, hie, hcfg]
  simp only [backends_, List.mem_cons, List.not_mem_nil, or_false,
    Prod.mk.injEq] at hmem
  rcases hmem with ⟨h1, h2⟩ | ⟨h1, h2⟩ | ⟨h1, h2⟩ | ⟨h1, h2⟩ | ⟨h1, h2⟩ <;>
    subst h2 <;> rfl

/-- Witness for C1 (amended): the third conjunct instantiated at the
registered backend "rye". -/
theorem delegation_concatenates_single_shell_string_witness :
    run_command fs_empty exec_echo "/p" ["x y"] "rye" =
      popen_capture exec_echo
        (render_shell_command (rye_config.run_cmd_ ++ ["x y"])) :=
  delegation_concatenates_single_shell_string.2.2 fs_empty exec_echo "/p"
    "rye" ["x y"] rye_config (by decide) rfl

end Uvstart
